import Mathlib

/-!
# calcSpherConvJacob: the MATLAB gateway and the Jacobian it calls

Shallow embedding of `mexFunction` from
`Coordinate Systems/Jacobians/Converted Jacobians/calcSpherConvJacob.cpp`.

The gateway only inspects the number of arguments, the dimensions of each
argument and the results of the `MexValidation.h` helpers; the numeric
payload is handed to `calcSpherConvJacobGenCPP` untouched.  The embedding is
therefore parametric in the scalar type `R` that stands for `double`.
-/

namespace CalcSpherConvJacob

/-! ## Host arrays -/

/-- The host array `mxArray`, seen through the accessors that the gateway
uses.  `realDouble`, `intValue` and `boolValue` record what the helpers
`checkRealDoubleArray`, `getIntFromMatlab` and `getBoolFromMatlab` of
`MexValidation.h` do on this array: `.ok` is the value they return,
`.error msg` the message with which they abort the call. -/
structure MxArray (R : Type) where
  /-- Number of rows, `mxGetM`. -/
  rows : Nat
  /-- Number of columns, `mxGetN`. -/
  cols : Nat
  /-- The elements in column-major order, `mxGetData`. -/
  data : List R
  /-- Outcome of `checkRealDoubleArray`. -/
  realDouble : Except String Unit
  /-- Outcome of `getIntFromMatlab`. -/
  intValue : Except String Int
  /-- Outcome of `getBoolFromMatlab`. -/
  boolValue : Except String Bool

/-- The ways in which a call of the gateway ends without reaching the core. -/
inductive Abort where
  /-- A call of `mexErrMsgTxt` written in `mexFunction` itself. -/
  | mexErr (msg : String)
  /-- An error raised inside one of the `MexValidation.h` helpers. -/
  | helperErr (msg : String)
  /-- A read of `prhs[i]` with `i` not below `nrhs`. -/
  | outOfRange (i : Nat)
  deriving DecidableEq, Repr

/-- The arguments with which `calcSpherConvJacobGenCPP` is invoked (the
output buffer apart).  Reaching this value means that the core ran and that
its result was stored in `plhs[0]`. -/
structure CoreArgs (R : Type) where
  zSpher : List R
  systemType : Int
  useHalfRange : Bool
  lTx : List R
  lRx : List R
  M : List R
  deriving DecidableEq, Repr

variable {R : Type}

def mxGetM (a : MxArray R) : Nat := a.rows

def mxGetN (a : MxArray R) : Nat := a.cols

def mxGetData (a : MxArray R) : List R := a.data

/-- An array is empty when one of its dimensions is zero. -/
def mxIsEmpty (a : MxArray R) : Bool := a.rows == 0 || a.cols == 0

def mexErrMsgTxt {α : Type} (msg : String) : Except Abort α :=
  .error (.mexErr msg)

def checkRealDoubleArray (a : MxArray R) : Except Abort Unit :=
  match a.realDouble with
  | .ok u => .ok u
  | .error msg => .error (.helperErr msg)

def getIntFromMatlab (a : MxArray R) : Except Abort Int :=
  match a.intValue with
  | .ok v => .ok v
  | .error msg => .error (.helperErr msg)

def getBoolFromMatlab (a : MxArray R) : Except Abort Bool :=
  match a.boolValue with
  | .ok v => .ok v
  | .error msg => .error (.helperErr msg)

/-- The read `prhs[i]`: the array holds `nrhs = prhs.length` elements. -/
def prhsAt (prhs : List (MxArray R)) (i : Nat) : Except Abort (MxArray R) :=
  match prhs[i]? with
  | some a => .ok a
  | none => .error (.outOfRange i)

/-! ## The gateway, block by block -/

/-- Lines 76-84: the checks on the argument counts. -/
def checkCounts (nlhs : Int) (nrhs : Nat) : Except Abort Unit :=
  if nrhs < 1 ∨ nrhs > 6 then
    mexErrMsgTxt "Incorrect number of inputs."
  else if nlhs > 1 then
    mexErrMsgTxt "Wrong number of outputs."
  else
    .ok ()

/-- Lines 86-92: the measurement `zSpher`. -/
def readZSpher (prhs : List (MxArray R)) : Except Abort (List R) := do
  let a ← prhsAt prhs 0
  if mxGetM a ≠ 3 ∨ mxGetN a ≠ 1 then
    mexErrMsgTxt "The point has the wrong dimensionality."
  else do
    checkRealDoubleArray a
    pure (mxGetData a)

/-- Lines 94-103: `systemType`. -/
def readSystemType (prhs : List (MxArray R)) : Except Abort Int :=
  if prhs.length < 2 then
    pure 0
  else do
    let a ← prhsAt prhs 1
    if mxIsEmpty a then
      pure 0
    else do
      let systemType ← getIntFromMatlab a
      if systemType ≠ 0 ∧ systemType ≠ 1 then
        mexErrMsgTxt "Invalid system type specified."
      else
        pure systemType

/-- Lines 105-109: `useHalfRange`. -/
def readUseHalfRange (prhs : List (MxArray R)) : Except Abort Bool :=
  if prhs.length < 3 then
    pure false
  else do
    let a ← prhsAt prhs 2
    if mxIsEmpty a then
      pure false
    else
      getBoolFromMatlab a

/-- Lines 111-124: the transmitter location `lTx`. -/
def readLTx [Zero R] (prhs : List (MxArray R)) : Except Abort (List R) :=
  if prhs.length < 3 then
    pure [0, 0, 0]
  else do
    let a ← prhsAt prhs 3
    if mxIsEmpty a then
      pure [0, 0, 0]
    else if mxGetM a ≠ 3 ∨ mxGetN a ≠ 1 then
      mexErrMsgTxt "The transmitter location has the wrong dimensionality."
    else do
      checkRealDoubleArray a
      pure (mxGetData a)

/-- Lines 126-139: the receiver location `lRx`. -/
def readLRx [Zero R] (prhs : List (MxArray R)) : Except Abort (List R) :=
  if prhs.length < 4 then
    pure [0, 0, 0]
  else do
    let a ← prhsAt prhs 4
    if mxIsEmpty a then
      pure [0, 0, 0]
    else if mxGetM a ≠ 3 ∨ mxGetN a ≠ 1 then
      mexErrMsgTxt "The receiver location has the wrong dimensionality."
    else do
      checkRealDoubleArray a
      pure (mxGetData a)

/-- Lines 141-163: the rotation matrix `M`, stored by column. -/
def readM [Zero R] [One R] (prhs : List (MxArray R)) : Except Abort (List R) :=
  if prhs.length < 5 then
    pure [1, 0, 0, 0, 1, 0, 0, 0, 1]
  else do
    let a ← prhsAt prhs 5
    if mxIsEmpty a then
      pure [1, 0, 0, 0, 1, 0, 0, 0, 1]
    else if mxGetM a ≠ 3 ∨ mxGetN a ≠ 3 then
      mexErrMsgTxt "The receiver location has the wrong dimensionality."
    else do
      checkRealDoubleArray a
      pure (mxGetData a)

/-- Lines 86-169: everything after the checks on the counts.  `.ok args`
stands for lines 165-169: the output matrix is created,
`calcSpherConvJacobGenCPP` is called with `args` and the result is assigned to
`plhs[0]`. -/
def validateArguments [Zero R] [One R] (prhs : List (MxArray R)) :
    Except Abort (CoreArgs R) := do
  let zSpher ← readZSpher prhs
  let systemType ← readSystemType prhs
  let useHalfRange ← readUseHalfRange prhs
  let lTx ← readLTx prhs
  let lRx ← readLRx prhs
  let M ← readM prhs
  pure { zSpher := zSpher, systemType := systemType, useHalfRange := useHalfRange,
         lTx := lTx, lRx := lRx, M := M }

/-- The gateway `mexFunction(nlhs, plhs, nrhs, prhs)` with
`nrhs = prhs.length`.  `.ok args` is a call that reaches line 168 and invokes
the core with `args`; `.error` is a call that stops before line 165, so
that nothing is assigned to `plhs[0]`. -/
def mexFunction [Zero R] [One R] (nlhs : Int) (prhs : List (MxArray R)) :
    Except Abort (CoreArgs R) := do
  checkCounts nlhs prhs.length
  validateArguments prhs

/-! ## Sample arrays -/

/-- A real double array of the given shape and contents. -/
def realArray (rows cols : Nat) (data : List R) : MxArray R :=
  { rows := rows, cols := cols, data := data, realDouble := .ok (),
    intValue := .error "not a scalar", boolValue := .error "not a scalar" }

/-- A real double scalar holding the integer `v`. -/
def intScalar [IntCast R] (v : Int) : MxArray R :=
  { rows := 1, cols := 1, data := [(v : R)], realDouble := .ok (),
    intValue := .ok v, boolValue := .ok (v != 0) }

/-- A logical scalar. -/
def boolScalar [Zero R] [One R] (b : Bool) : MxArray R :=
  { rows := 1, cols := 1, data := [if b then 1 else 0],
    realDouble := .error "not a double array",
    intValue := .ok (if b then 1 else 0), boolValue := .ok b }

/-- The empty matrix `[]`. -/
def emptyArray : MxArray R :=
  { rows := 0, cols := 0, data := [], realDouble := .ok (),
    intValue := .error "empty", boolValue := .error "empty" }

/-- The measurement of the scenario: range 1000, azimuth 0, elevation 0. -/
def zSample : MxArray ℚ := realArray 3 1 [1000, 0, 0]

/-- A site location, 3x1. -/
def siteSample : MxArray ℚ := realArray 3 1 [10, 20, 30]

/-- The identity as a 3x3 array. -/
def eyeSample : MxArray ℚ := realArray 3 3 [1, 0, 0, 0, 1, 0, 0, 0, 1]

/-! ## Shapes of the supplied arguments -/

/-- The array has `r` rows and `c` columns. -/
def shapeIs (r c : Nat) (a : MxArray R) : Bool := a.rows == r && a.cols == c

/-- Argument `i` is omitted, or empty, or has `r` rows and `c` columns. -/
def suppliedShapeOK (prhs : List (MxArray R)) (i r c : Nat) : Bool :=
  match prhs[i]? with
  | none => true
  | some a => mxIsEmpty a || shapeIs r c a

/-- The measurement is present and 3x1. -/
def zSpherShapeOK (prhs : List (MxArray R)) : Bool :=
  match prhs[0]? with
  | none => false
  | some a => shapeIs 3 1 a

/-- Every supplied argument has its required shape: `zSpher`, `lTx` and
`lRx` are 3x1 and `M` is 3x3. -/
def wellShaped (prhs : List (MxArray R)) : Bool :=
  zSpherShapeOK prhs && suppliedShapeOK prhs 3 3 1 && suppliedShapeOK prhs 4 3 1 &&
    suppliedShapeOK prhs 5 3 3

/-! ## The Jacobian routine

`calcSpherConvJacobGenCPP` lives in `CoordFuncs.hpp`, which is not among the
translated sources.  It is modelled from the specification (section 4.1),
over the real numbers.
-/

/-- Modelled from the spec: `Vector3`, three real components (x, y, z). -/
abbrev Vector3 := Fin 3 → ℝ

/-- Modelled from the spec: `RotationMatrix3x3`, the rotation from the global
axes to the local frame of the receiver. -/
abbrev RotationMatrix3x3 := Matrix (Fin 3) (Fin 3) ℝ

/-- Modelled from the spec: `JacobianMatrix`; row `i` holds the partial
derivatives of the `i`-th spherical component (range, azimuth, elevation) with
respect to (x, y, z). -/
abbrev JacobianMatrix := Matrix (Fin 3) (Fin 3) ℝ

/-- Modelled from the spec: `SphericalMeasurement`, (range r, azimuth α,
elevation ε) in the local frame of the receiver. -/
structure SphericalMeasurement where
  range : ℝ
  azimuth : ℝ
  elevation : ℝ

/-- Euclidean inner product of two vectors. -/
noncomputable def dot3 (v w : Vector3) : ℝ := v 0 * w 0 + v 1 * w 1 + v 2 * w 2

/-- Euclidean length `|v|`. -/
noncomputable def norm3 (v : Vector3) : ℝ := Real.sqrt (v 0 ^ 2 + v 1 ^ 2 + v 2 ^ 2)

/-- The unit vector along `v`. -/
noncomputable def unit3 (v : Vector3) : Vector3 := (1 / norm3 v) • v

/-- Modelled from the spec: the unit direction `u(α, ε)` of step 2 of the
algorithm of `calcSpherConvJacobGenCPP`.  System type 0 gives
`(cos ε cos α, cos ε sin α, sin ε)`, system type 1 gives
`(cos ε sin α, sin ε, cos ε cos α)`. -/
noncomputable def direction (systemType : Int) (α ε : ℝ) : Vector3 :=
  if systemType = 0 then
    ![Real.cos ε * Real.cos α, Real.cos ε * Real.sin α, Real.sin ε]
  else
    ![Real.cos ε * Real.sin α, Real.sin ε, Real.cos ε * Real.cos α]

/-- Modelled from the spec: the full path length of step 1 of
`calcSpherConvJacobGenCPP`, `rFull = useHalfRange ? 2·zSpher.range : zSpher.range`. -/
noncomputable def rFull (zSpher : SphericalMeasurement) (useHalfRange : Bool) : ℝ :=
  if useHalfRange then 2 * zSpher.range else zSpher.range

/-- Modelled from the spec: the bistatic range solve of step 1 of
`calcSpherConvJacobGenCPP`, the distance `d` from the receiver along the unit
direction `u` with `d + |d·u + b| = rFull`, where `b = lRx - lTx`.  Squaring
`|d·u + b| = rFull - d` with `|u| = 1` leaves the linear equation
`2 d (rFull + u·b) = rFull² - |b|²`, which is the closed form used here; for
`b = 0` it is `d = rFull / 2`. -/
noncomputable def bistaticDistance (r : ℝ) (u b : Vector3) : ℝ :=
  (r ^ 2 - norm3 b ^ 2) / (2 * (r + dot3 u b))

/-- Modelled from the spec: the target of step 1 of `calcSpherConvJacobGenCPP`
in global coordinates, `pGlobal = Mᵀ · pLocal + lRx` with `pLocal = d·u`. -/
noncomputable def targetGlobal (zSpher : SphericalMeasurement) (systemType : Int)
    (useHalfRange : Bool) (lTx lRx : Vector3) (M : RotationMatrix3x3) : Vector3 :=
  let u := direction systemType zSpher.azimuth zSpher.elevation
  let d := bistaticDistance (rFull zSpher useHalfRange) u (lRx - lTx)
  let pLocal := d • u
  M.transpose.mulVec pLocal + lRx

/-- Modelled from the spec: the range row of step 3 of
`calcSpherConvJacobGenCPP`, the sum of the two unit vectors pointing from each
site to the target, each component scaled by 0.5 when `useHalfRange` is
true. -/
noncomputable def rangeGradient (p : Vector3) (useHalfRange : Bool) (lTx lRx : Vector3) :
    Vector3 :=
  (if useHalfRange then (0.5 : ℝ) else 1) • (unit3 (p - lTx) + unit3 (p - lRx))

/-- Modelled from the spec: the derivative of the azimuth of step 3 of
`calcSpherConvJacobGenCPP` with respect to the local coordinates.  The azimuth
is `atan2(y, x)` for system type 0 and `atan2(x, z)` for system type 1. -/
noncomputable def azimuthGradientLocal (systemType : Int) (q : Vector3) : Vector3 :=
  if systemType = 0 then
    ![-(q 1) / (q 0 ^ 2 + q 1 ^ 2), q 0 / (q 0 ^ 2 + q 1 ^ 2), 0]
  else
    ![q 2 / (q 2 ^ 2 + q 0 ^ 2), 0, -(q 0) / (q 2 ^ 2 + q 0 ^ 2)]

/-- Modelled from the spec: the derivative of the elevation of step 3 of
`calcSpherConvJacobGenCPP` with respect to the local coordinates.  The
elevation is `asin(z / |q|)` for system type 0 and `asin(y / |q|)` for system
type 1. -/
noncomputable def elevationGradientLocal (systemType : Int) (q : Vector3) : Vector3 :=
  if systemType = 0 then
    let ρ := Real.sqrt (q 0 ^ 2 + q 1 ^ 2)
    ![-(q 0 * q 2) / (norm3 q ^ 2 * ρ), -(q 1 * q 2) / (norm3 q ^ 2 * ρ), ρ / norm3 q ^ 2]
  else
    let ρ := Real.sqrt (q 2 ^ 2 + q 0 ^ 2)
    ![-(q 0 * q 1) / (norm3 q ^ 2 * ρ), ρ / norm3 q ^ 2, -(q 2 * q 1) / (norm3 q ^ 2 * ρ)]

/-- Modelled from the spec: `calcSpherConvJacobGenCPP`, the contract
`computeJacobian(zSpher, systemType, useHalfRange, lTx, lRx, M)` of section
4.1.  The target is rebuilt from the measurement (step 1), the range row is
the gradient of the path length, and the angle rows are the local derivatives
at `M · (pGlobal - lRx)` multiplied on the right by `M` (step 3). -/
noncomputable def calcSpherConvJacobGenCPP (zSpher : SphericalMeasurement) (systemType : Int)
    (useHalfRange : Bool) (lTx lRx : Vector3) (M : RotationMatrix3x3) : JacobianMatrix :=
  let pGlobal := targetGlobal zSpher systemType useHalfRange lTx lRx M
  let qLocal := M.mulVec (pGlobal - lRx)
  Matrix.of ![rangeGradient pGlobal useHalfRange lTx lRx,
              Matrix.vecMul (azimuthGradientLocal systemType qLocal) M,
              Matrix.vecMul (elevationGradientLocal systemType qLocal) M]

/-- Modelled from the spec: the measurement of a target `p`, the point at
which `calcSpherConvJacobGenCPP` is evaluated.  The range is the path length
`|p - lTx| + |p - lRx|`, halved when `useHalfRange` is true; the angles are
those of the local point `M · (p - lRx)`, with `atan2(y, x)` written as the
argument of `x + i y`. -/
noncomputable def sphericalMeasurementOf (p : Vector3) (systemType : Int) (useHalfRange : Bool)
    (lTx lRx : Vector3) (M : RotationMatrix3x3) : SphericalMeasurement :=
  let q := M.mulVec (p - lRx)
  let r := norm3 (p - lTx) + norm3 (p - lRx)
  { range := if useHalfRange then r / 2 else r
    azimuth := if systemType = 0 then Complex.arg ⟨q 0, q 1⟩ else Complex.arg ⟨q 2, q 0⟩
    elevation := if systemType = 0 then Real.arcsin (q 2 / norm3 q)
                 else Real.arcsin (q 1 / norm3 q) }

/-! ## Stage lemmas -/

theorem bind_eq_ok {α β : Type} (x : Except Abort α) (f : α → Except Abort β) (b : β) :
    (x >>= f) = .ok b ↔ ∃ a, x = .ok a ∧ f a = .ok b := by
  cases x <;> simp [bind, Except.bind]

theorem bind_eq_error {α β : Type} (x : Except Abort α) (f : α → Except Abort β) (e : Abort) :
    (x >>= f) = .error e ↔ x = .error e ∨ ∃ a, x = .ok a ∧ f a = .error e := by
  cases x <;> simp [bind, Except.bind]

theorem prhsAt_eq_ok_iff (prhs : List (MxArray R)) (i : Nat) (a : MxArray R) :
    prhsAt prhs i = .ok a ↔ prhs[i]? = some a := by
  unfold prhsAt
  cases prhs[i]? <;> simp

theorem prhsAt_eq_error_iff (prhs : List (MxArray R)) (i : Nat) (e : Abort) :
    prhsAt prhs i = .error e ↔ prhs.length ≤ i ∧ e = .outOfRange i := by
  unfold prhsAt
  cases h : prhs[i]? with
  | none =>
    have := List.getElem?_eq_none_iff.mp h
    simp [this, eq_comm]
  | some a =>
    have := (List.getElem?_eq_some_iff.mp h).1
    simp
    omega

theorem checkRealDoubleArray_eq_ok_iff (a : MxArray R) (u : Unit) :
    checkRealDoubleArray a = .ok u ↔ a.realDouble = .ok () := by
  unfold checkRealDoubleArray
  cases a.realDouble <;> simp

theorem checkRealDoubleArray_eq_error_iff (a : MxArray R) (e : Abort) :
    checkRealDoubleArray a = .error e ↔ ∃ msg, a.realDouble = .error msg ∧ e = .helperErr msg := by
  unfold checkRealDoubleArray
  cases a.realDouble <;> simp [eq_comm]

theorem getIntFromMatlab_eq_error_iff (a : MxArray R) (e : Abort) :
    getIntFromMatlab a = .error e ↔ ∃ msg, a.intValue = .error msg ∧ e = .helperErr msg := by
  unfold getIntFromMatlab
  cases a.intValue <;> simp [eq_comm]

theorem getBoolFromMatlab_eq_error_iff (a : MxArray R) (e : Abort) :
    getBoolFromMatlab a = .error e ↔ ∃ msg, a.boolValue = .error msg ∧ e = .helperErr msg := by
  unfold getBoolFromMatlab
  cases a.boolValue <;> simp [eq_comm]

theorem checkCounts_eq_ok_iff (nlhs : Int) (nrhs : Nat) :
    checkCounts nlhs nrhs = .ok () ↔ 1 ≤ nrhs ∧ nrhs ≤ 6 ∧ nlhs ≤ 1 := by
  unfold checkCounts mexErrMsgTxt
  split
  · simp; omega
  · split
    · simp; omega
    · simp; omega

theorem checkCounts_eq_error_iff (nlhs : Int) (nrhs : Nat) (e : Abort) :
    checkCounts nlhs nrhs = .error e ↔
      ((nrhs < 1 ∨ nrhs > 6) ∧ e = .mexErr "Incorrect number of inputs.") ∨
      (1 ≤ nrhs ∧ nrhs ≤ 6 ∧ nlhs > 1 ∧ e = .mexErr "Wrong number of outputs.") := by
  unfold checkCounts mexErrMsgTxt
  by_cases h : nrhs < 1 ∨ nrhs > 6
  · have h2 : ¬ (1 ≤ nrhs ∧ nrhs ≤ 6 ∧ nlhs > 1 ∧ e = .mexErr "Wrong number of outputs.") := by
      omega
    simp only [h, if_true, true_and, h2, or_false, Except.error.injEq]
    exact eq_comm
  · have h3 : 1 ≤ nrhs ∧ nrhs ≤ 6 := by omega
    by_cases h4 : nlhs > 1
    · simp only [h, if_false, h4, if_true, false_and, false_or, h3, true_and, Except.error.injEq]
      exact eq_comm
    · have h5 : ¬ (nrhs = 0 ∨ 6 < nrhs) := by omega
      simp [h, h4, h5]

theorem readZSpher_eq_ok_iff (prhs : List (MxArray R)) (z : List R) :
    readZSpher prhs = .ok z ↔
      ∃ a, prhs[0]? = some a ∧ a.rows = 3 ∧ a.cols = 1 ∧ a.realDouble = .ok () ∧ z = a.data := by
  unfold readZSpher
  simp only [bind_eq_ok, prhsAt_eq_ok_iff]
  constructor
  · rintro ⟨a, ha, h⟩
    refine ⟨a, ha, ?_⟩
    split at h
    · simp [mexErrMsgTxt] at h
    · rename_i hs
      simp only [bind_eq_ok, checkRealDoubleArray_eq_ok_iff, mxGetM, mxGetN, mxGetData, pure,
        Except.pure] at h hs
      obtain ⟨_, hr, hz⟩ := h
      simp at hz
      exact ⟨by omega, by omega, hr, hz.symm⟩
  · rintro ⟨a, ha, h3, h1, hr, hz⟩
    refine ⟨a, ha, ?_⟩
    simp [mxGetM, mxGetN, mxGetData, h3, h1, bind_eq_ok, checkRealDoubleArray_eq_ok_iff, hr, hz,
      pure, Except.pure]

theorem prhsAt_eq_ok {prhs : List (MxArray R)} {i : Nat} {a : MxArray R}
    (h : prhs[i]? = some a) : prhsAt prhs i = .ok a := by
  simp [prhsAt, h]

theorem readSystemType_omitted {prhs : List (MxArray R)} (h : prhs.length < 2) :
    readSystemType prhs = .ok 0 := by
  simp [readSystemType, h, pure, Except.pure]

theorem readSystemType_empty {prhs : List (MxArray R)} {a : MxArray R}
    (h : prhs[1]? = some a) (he : mxIsEmpty a = true) : readSystemType prhs = .ok 0 := by
  unfold readSystemType
  split
  · rfl
  · simp [prhsAt_eq_ok h, he, bind, Except.bind, pure, Except.pure]

theorem readSystemType_supplied {prhs : List (MxArray R)} {a : MxArray R} {v : Int}
    (h : prhs[1]? = some a) (he : mxIsEmpty a = false) (hv : getIntFromMatlab a = .ok v) :
    readSystemType prhs =
      if v ≠ 0 ∧ v ≠ 1 then .error (.mexErr "Invalid system type specified.") else .ok v := by
  have hlen : ¬ prhs.length < 2 := by
    have := (List.getElem?_eq_some_iff.mp h).1
    omega
  simp [readSystemType, hlen, prhsAt_eq_ok h, he, hv, bind, Except.bind, pure, Except.pure,
    mexErrMsgTxt]

theorem readSystemType_ok_range {prhs : List (MxArray R)} {v : Int}
    (h : readSystemType prhs = .ok v) : v = 0 ∨ v = 1 := by
  unfold readSystemType at h
  split at h
  · cases h; simp
  · cases h1 : prhsAt prhs 1 with
    | error e => simp [h1, bind, Except.bind] at h
    | ok a =>
      simp only [h1, bind, Except.bind] at h
      split at h
      · cases h; simp
      · cases h2 : getIntFromMatlab a with
        | error e => simp [h2] at h
        | ok w =>
          simp only [h2] at h
          split at h
          · simp [mexErrMsgTxt] at h
          · cases h; omega

theorem readZSpher_error {prhs : List (MxArray R)} {e : Abort} (h : readZSpher prhs = .error e) :
    e = .mexErr "The point has the wrong dimensionality." ∨ (∃ msg, e = .helperErr msg) ∨
      (e = .outOfRange 0 ∧ prhs.length = 0) := by
  unfold readZSpher at h
  simp only [bind_eq_error, prhsAt_eq_error_iff, prhsAt_eq_ok_iff] at h
  rcases h with ⟨hl, he⟩ | ⟨a, _, h⟩
  · exact .inr (.inr ⟨he, by omega⟩)
  · split at h
    · simp only [mexErrMsgTxt, Except.error.injEq] at h
      exact .inl h.symm
    · simp only [bind_eq_error, checkRealDoubleArray_eq_error_iff, pure, Except.pure] at h
      rcases h with ⟨msg, _, he⟩ | ⟨_, _, h⟩
      · exact .inr (.inl ⟨msg, he⟩)
      · simp at h

theorem readSystemType_error {prhs : List (MxArray R)} {e : Abort}
    (h : readSystemType prhs = .error e) :
    e = .mexErr "Invalid system type specified." ∨ ∃ msg, e = .helperErr msg := by
  unfold readSystemType at h
  split at h
  · simp [pure, Except.pure] at h
  · rename_i hlen
    simp only [bind_eq_error, prhsAt_eq_error_iff, prhsAt_eq_ok_iff] at h
    rcases h with ⟨hl, _⟩ | ⟨a, _, h⟩
    · omega
    · split at h
      · simp [pure, Except.pure] at h
      · simp only [bind_eq_error, getIntFromMatlab_eq_error_iff] at h
        rcases h with ⟨msg, _, he⟩ | ⟨v, _, h⟩
        · exact .inr ⟨msg, he⟩
        · split at h
          · simp only [mexErrMsgTxt, Except.error.injEq] at h
            exact .inl h.symm
          · simp [pure, Except.pure] at h

theorem readUseHalfRange_error {prhs : List (MxArray R)} {e : Abort}
    (h : readUseHalfRange prhs = .error e) : ∃ msg, e = .helperErr msg := by
  unfold readUseHalfRange at h
  split at h
  · simp [pure, Except.pure] at h
  · rename_i hlen
    simp only [bind_eq_error, prhsAt_eq_error_iff, prhsAt_eq_ok_iff] at h
    rcases h with ⟨hl, _⟩ | ⟨a, _, h⟩
    · omega
    · split at h
      · simp [pure, Except.pure] at h
      · simp only [getBoolFromMatlab_eq_error_iff] at h
        obtain ⟨msg, _, he⟩ := h
        exact ⟨msg, he⟩

theorem readUseHalfRange_default {prhs : List (MxArray R)} {b : Bool}
    (hd : prhs.length < 3 ∨ ∃ a, prhs[2]? = some a ∧ mxIsEmpty a = true)
    (h : readUseHalfRange prhs = .ok b) : b = false := by
  unfold readUseHalfRange at h
  split at h
  · simp only [pure, Except.pure, Except.ok.injEq] at h
    exact h.symm
  · rename_i hlen
    rcases hd with hd | ⟨a, ha, he⟩
    · omega
    · simp only [bind_eq_ok, prhsAt_eq_ok_iff] at h
      obtain ⟨a2, ha2, h⟩ := h
      rw [ha] at ha2
      cases ha2
      simp only [he, if_true, pure, Except.pure, Except.ok.injEq] at h
      exact h.symm

/-- The common shape of the three blocks that read an optional matrix
argument: the default below the threshold, else the read of `prhs[i]`. -/
theorem optional_block {prhs : List (MxArray R)} {k i r c : Nat} {dflt : List R} {msg : String}
    {res : Except Abort (List R)}
    (hdef : res =
      if prhs.length < k then pure dflt
      else do
        let a ← prhsAt prhs i
        if mxIsEmpty a then pure dflt
        else if mxGetM a ≠ r ∨ mxGetN a ≠ c then mexErrMsgTxt msg
        else do
          checkRealDoubleArray a
          pure (mxGetData a)) :
    (∀ v, res = .ok v →
      (prhs.length < k ∧ v = dflt) ∨
      ∃ a, prhs[i]? = some a ∧ k ≤ prhs.length ∧
        ((mxIsEmpty a = true ∧ v = dflt) ∨
         (mxIsEmpty a = false ∧ a.rows = r ∧ a.cols = c ∧ a.realDouble = .ok () ∧ v = a.data))) ∧
    (∀ e, res = .error e →
      k ≤ prhs.length ∧
      ((prhs.length ≤ i ∧ e = .outOfRange i) ∨
       ∃ a, prhs[i]? = some a ∧ mxIsEmpty a = false ∧
        (((a.rows ≠ r ∨ a.cols ≠ c) ∧ e = .mexErr msg) ∨
         (a.rows = r ∧ a.cols = c ∧ ∃ m, a.realDouble = .error m ∧ e = .helperErr m)))) := by
  subst hdef
  by_cases hk : prhs.length < k
  · simp only [hk, if_true, pure, Except.pure]
    constructor
    · intro v hv
      simp only [Except.ok.injEq] at hv
      exact .inl ⟨trivial, hv.symm⟩
    · intro e hv
      simp at hv
  · simp only [hk, if_false]
    have hk2 : k ≤ prhs.length := by omega
    cases hp : prhs[i]? with
    | none =>
      have hl := List.getElem?_eq_none_iff.mp hp
      have : prhsAt prhs i = .error (.outOfRange i) := by simp [prhsAt, hp]
      simp only [this, bind, Except.bind]
      constructor
      · intro v hv
        simp at hv
      · intro e hv
        simp only [Except.error.injEq] at hv
        exact ⟨hk2, .inl ⟨hl, hv.symm⟩⟩
    | some a =>
      have : prhsAt prhs i = .ok a := by simp [prhsAt, hp]
      simp only [this, bind, Except.bind]
      by_cases he : mxIsEmpty a = true
      · simp only [he, if_true, pure, Except.pure]
        constructor
        · intro v hv
          simp only [Except.ok.injEq] at hv
          exact .inr ⟨a, rfl, hk2, .inl ⟨he, hv.symm⟩⟩
        · intro e hv
          simp at hv
      · have he2 : mxIsEmpty a = false := by simpa using he
        by_cases hs : mxGetM a ≠ r ∨ mxGetN a ≠ c
        · have hs2 : a.rows ≠ r ∨ a.cols ≠ c := hs
          simp only [he2, hs, if_true, mexErrMsgTxt]
          constructor
          · intro v hv
            simp at hv
          · intro e hv
            simp only [Bool.false_eq_true, if_false, Except.error.injEq] at hv
            exact ⟨hk2, .inr ⟨a, rfl, he2, .inl ⟨hs2, hv.symm⟩⟩⟩
        · have hs2 : a.rows = r ∧ a.cols = c := by
            simp only [mxGetM, mxGetN] at hs
            tauto
          simp only [he2, hs, if_false, Bool.false_eq_true]
          cases hr : a.realDouble with
          | error m =>
            simp only [checkRealDoubleArray, hr]
            constructor
            · intro v hv
              simp at hv
            · intro e hv
              simp only [Except.error.injEq] at hv
              exact ⟨hk2, .inr ⟨a, rfl, he2, .inr ⟨hs2.1, hs2.2, m, hr, hv.symm⟩⟩⟩
          | ok u =>
            simp only [checkRealDoubleArray, hr, pure, Except.pure, mxGetData]
            constructor
            · intro v hv
              simp only [Except.ok.injEq] at hv
              exact .inr ⟨a, rfl, hk2, .inr ⟨he2, hs2.1, hs2.2, hr, hv.symm⟩⟩
            · intro e hv
              simp at hv

theorem readLTx_block [Zero R] (prhs : List (MxArray R)) :
    (∀ v, readLTx prhs = .ok v →
      (prhs.length < 3 ∧ v = [0, 0, 0]) ∨
      ∃ a, prhs[3]? = some a ∧ 3 ≤ prhs.length ∧
        ((mxIsEmpty a = true ∧ v = [0, 0, 0]) ∨
         (mxIsEmpty a = false ∧ a.rows = 3 ∧ a.cols = 1 ∧ a.realDouble = .ok () ∧ v = a.data))) ∧
    (∀ e, readLTx prhs = .error e →
      3 ≤ prhs.length ∧
      ((prhs.length ≤ 3 ∧ e = .outOfRange 3) ∨
       ∃ a, prhs[3]? = some a ∧ mxIsEmpty a = false ∧
        (((a.rows ≠ 3 ∨ a.cols ≠ 1) ∧
            e = .mexErr "The transmitter location has the wrong dimensionality.") ∨
         (a.rows = 3 ∧ a.cols = 1 ∧ ∃ m, a.realDouble = .error m ∧ e = .helperErr m)))) :=
  optional_block (by unfold readLTx; rfl)

theorem readLRx_block [Zero R] (prhs : List (MxArray R)) :
    (∀ v, readLRx prhs = .ok v →
      (prhs.length < 4 ∧ v = [0, 0, 0]) ∨
      ∃ a, prhs[4]? = some a ∧ 4 ≤ prhs.length ∧
        ((mxIsEmpty a = true ∧ v = [0, 0, 0]) ∨
         (mxIsEmpty a = false ∧ a.rows = 3 ∧ a.cols = 1 ∧ a.realDouble = .ok () ∧ v = a.data))) ∧
    (∀ e, readLRx prhs = .error e →
      4 ≤ prhs.length ∧
      ((prhs.length ≤ 4 ∧ e = .outOfRange 4) ∨
       ∃ a, prhs[4]? = some a ∧ mxIsEmpty a = false ∧
        (((a.rows ≠ 3 ∨ a.cols ≠ 1) ∧
            e = .mexErr "The receiver location has the wrong dimensionality.") ∨
         (a.rows = 3 ∧ a.cols = 1 ∧ ∃ m, a.realDouble = .error m ∧ e = .helperErr m)))) :=
  optional_block (by unfold readLRx; rfl)

theorem readM_block [Zero R] [One R] (prhs : List (MxArray R)) :
    (∀ v, readM prhs = .ok v →
      (prhs.length < 5 ∧ v = [1, 0, 0, 0, 1, 0, 0, 0, 1]) ∨
      ∃ a, prhs[5]? = some a ∧ 5 ≤ prhs.length ∧
        ((mxIsEmpty a = true ∧ v = [1, 0, 0, 0, 1, 0, 0, 0, 1]) ∨
         (mxIsEmpty a = false ∧ a.rows = 3 ∧ a.cols = 3 ∧ a.realDouble = .ok () ∧ v = a.data))) ∧
    (∀ e, readM prhs = .error e →
      5 ≤ prhs.length ∧
      ((prhs.length ≤ 5 ∧ e = .outOfRange 5) ∨
       ∃ a, prhs[5]? = some a ∧ mxIsEmpty a = false ∧
        (((a.rows ≠ 3 ∨ a.cols ≠ 3) ∧
            e = .mexErr "The receiver location has the wrong dimensionality.") ∨
         (a.rows = 3 ∧ a.cols = 3 ∧ ∃ m, a.realDouble = .error m ∧ e = .helperErr m)))) :=
  optional_block (by unfold readM; rfl)

/-- A call reaches the core exactly when every block succeeds, and the core
then receives the values the blocks produced. -/
theorem mexFunction_eq_ok_iff [Zero R] [One R] (nlhs : Int) (prhs : List (MxArray R))
    (args : CoreArgs R) :
    mexFunction nlhs prhs = .ok args ↔
      checkCounts nlhs prhs.length = .ok () ∧ readZSpher prhs = .ok args.zSpher ∧
      readSystemType prhs = .ok args.systemType ∧
      readUseHalfRange prhs = .ok args.useHalfRange ∧ readLTx prhs = .ok args.lTx ∧
      readLRx prhs = .ok args.lRx ∧ readM prhs = .ok args.M := by
  unfold mexFunction validateArguments
  simp only [bind_eq_ok, pure, Except.pure, Except.ok.injEq]
  constructor
  · rintro ⟨_, hc, z, hz, st, hst, b, hb, t, ht, r, hr, m, hm, rfl⟩
    exact ⟨hc, hz, hst, hb, ht, hr, hm⟩
  · rintro ⟨hc, hz, hst, hb, ht, hr, hm⟩
    exact ⟨(), hc, _, hz, _, hst, _, hb, _, ht, _, hr, _, hm, rfl⟩

/-- A call that stops does so in the first block that fails. -/
theorem mexFunction_eq_error_iff [Zero R] [One R] (nlhs : Int) (prhs : List (MxArray R))
    (e : Abort) :
    mexFunction nlhs prhs = .error e ↔
      checkCounts nlhs prhs.length = .error e ∨
      (checkCounts nlhs prhs.length = .ok () ∧
        (readZSpher prhs = .error e ∨
        ((∃ z, readZSpher prhs = .ok z) ∧
          (readSystemType prhs = .error e ∨
          ((∃ t, readSystemType prhs = .ok t) ∧
            (readUseHalfRange prhs = .error e ∨
            ((∃ b, readUseHalfRange prhs = .ok b) ∧
              (readLTx prhs = .error e ∨
              ((∃ v, readLTx prhs = .ok v) ∧
                (readLRx prhs = .error e ∨
                ((∃ v, readLRx prhs = .ok v) ∧ readM prhs = .error e))))))))))) := by
  unfold mexFunction validateArguments
  cases checkCounts nlhs prhs.length with
  | error e1 => simp [bind, Except.bind]
  | ok u =>
    cases readZSpher prhs with
    | error e1 => simp [bind, Except.bind]
    | ok z =>
      cases readSystemType prhs with
      | error e1 => simp [bind, Except.bind]
      | ok t =>
        cases readUseHalfRange prhs with
        | error e1 => simp [bind, Except.bind]
        | ok b =>
          cases readLTx prhs with
          | error e1 => simp [bind, Except.bind]
          | ok v =>
            cases readLRx prhs with
            | error e1 => simp [bind, Except.bind]
            | ok w =>
              cases readM prhs with
              | error e1 => simp [bind, Except.bind]
              | ok m => simp [bind, Except.bind, pure, Except.pure]

/-- The messages that `mexFunction` itself can raise after the checks on the
counts. -/
theorem validate_mexErr [Zero R] [One R] {nlhs : Int} {prhs : List (MxArray R)} {msg : String}
    (hc : checkCounts nlhs prhs.length = .ok ())
    (h : mexFunction nlhs prhs = .error (.mexErr msg)) :
    msg = "The point has the wrong dimensionality." ∨
    msg = "Invalid system type specified." ∨
    msg = "The transmitter location has the wrong dimensionality." ∨
    msg = "The receiver location has the wrong dimensionality." := by
  rw [mexFunction_eq_error_iff] at h
  rcases h with h | ⟨-, h | ⟨-, h | ⟨-, h | ⟨-, h | ⟨-, h | ⟨-, h⟩⟩⟩⟩⟩⟩
  · rw [hc] at h
    cases h
  · rcases readZSpher_error h with h | ⟨m, h⟩ | ⟨h, -⟩
    · simp only [Abort.mexErr.injEq] at h
      exact .inl h
    · cases h
    · cases h
  · rcases readSystemType_error h with h | ⟨m, h⟩
    · simp only [Abort.mexErr.injEq] at h
      exact .inr (.inl h)
    · cases h
  · obtain ⟨m, h⟩ := readUseHalfRange_error h
    cases h
  · rcases ((readLTx_block prhs).2 _ h).2 with ⟨-, h⟩ | ⟨a, -, -, ⟨-, h⟩ | ⟨-, -, m, -, h⟩⟩
    · cases h
    · simp only [Abort.mexErr.injEq] at h
      exact .inr (.inr (.inl h))
    · cases h
  · rcases ((readLRx_block prhs).2 _ h).2 with ⟨-, h⟩ | ⟨a, -, -, ⟨-, h⟩ | ⟨-, -, m, -, h⟩⟩
    · cases h
    · simp only [Abort.mexErr.injEq] at h
      exact .inr (.inr (.inr h))
    · cases h
  · rcases ((readM_block prhs).2 _ h).2 with ⟨-, h⟩ | ⟨a, -, -, ⟨-, h⟩ | ⟨-, -, m, -, h⟩⟩
    · cases h
    · simp only [Abort.mexErr.injEq] at h
      exact .inr (.inr (.inr h))
    · cases h

/-- C6: the call is rejected with "Incorrect number of inputs." exactly when
`nrhs < 1` or `nrhs > 6`, whatever the arguments are; with `1 ≤ nrhs ≤ 6` it is
rejected with "Wrong number of outputs." exactly when `nlhs > 1`; and with
`1 ≤ nrhs ≤ 6` and `nlhs ≤ 1` the call continues with the validation of the
arguments. -/
theorem argument_count_check [Zero R] [One R] (nlhs : Int) (prhs : List (MxArray R)) :
    (mexFunction nlhs prhs = .error (.mexErr "Incorrect number of inputs.") ↔
        prhs.length < 1 ∨ prhs.length > 6) ∧
    (1 ≤ prhs.length ∧ prhs.length ≤ 6 →
      (mexFunction nlhs prhs = .error (.mexErr "Wrong number of outputs.") ↔ nlhs > 1)) ∧
    (1 ≤ prhs.length ∧ prhs.length ≤ 6 ∧ nlhs ≤ 1 →
      checkCounts nlhs prhs.length = .ok () ∧
      mexFunction nlhs prhs = validateArguments prhs) := by
  refine ⟨⟨fun h => ?_, fun h => ?_⟩, fun hr => ⟨fun h => ?_, fun h => ?_⟩, fun hr => ?_⟩
  · by_contra hlen
    by_cases hl : nlhs > 1
    · have hc : checkCounts nlhs prhs.length = .error (.mexErr "Wrong number of outputs.") :=
        (checkCounts_eq_error_iff _ _ _).mpr (.inr ⟨by omega, by omega, hl, rfl⟩)
      rw [mexFunction_eq_error_iff, hc] at h
      simp at h
    · have hc : checkCounts nlhs prhs.length = .ok () :=
        (checkCounts_eq_ok_iff _ _).mpr ⟨by omega, by omega, by omega⟩
      have := validate_mexErr hc h
      simp at this
  · have hc : checkCounts nlhs prhs.length = .error (.mexErr "Incorrect number of inputs.") :=
      (checkCounts_eq_error_iff _ _ _).mpr (.inl ⟨h, rfl⟩)
    rw [mexFunction_eq_error_iff]
    exact .inl hc
  · by_contra hl
    have hc : checkCounts nlhs prhs.length = .ok () :=
      (checkCounts_eq_ok_iff _ _).mpr ⟨hr.1, hr.2, by omega⟩
    have := validate_mexErr hc h
    simp at this
  · have hc : checkCounts nlhs prhs.length = .error (.mexErr "Wrong number of outputs.") :=
      (checkCounts_eq_error_iff _ _ _).mpr (.inr ⟨hr.1, hr.2, h, rfl⟩)
    rw [mexFunction_eq_error_iff]
    exact .inl hc
  · have hc : checkCounts nlhs prhs.length = .ok () :=
      (checkCounts_eq_ok_iff _ _).mpr ⟨hr.1, hr.2.1, hr.2.2⟩
    refine ⟨hc, ?_⟩
    simp [mexFunction, hc, bind, Except.bind]

theorem zSpherShapeOK_of_ok {prhs : List (MxArray R)} {z : List R}
    (h : readZSpher prhs = .ok z) : zSpherShapeOK prhs = true := by
  obtain ⟨a, ha, h3, h1, -, -⟩ := (readZSpher_eq_ok_iff prhs z).mp h
  simp [zSpherShapeOK, ha, shapeIs, h3, h1]

theorem suppliedShapeOK_of_short (prhs : List (MxArray R)) (i r c : Nat)
    (h : prhs.length ≤ i) : suppliedShapeOK prhs i r c = true := by
  simp [suppliedShapeOK, List.getElem?_eq_none_iff.mpr h]

theorem suppliedShapeOK_of_block {prhs : List (MxArray R)} {k i r c : Nat} {dflt v : List R}
    (hki : k ≤ i)
    (h : (prhs.length < k ∧ v = dflt) ∨
      ∃ a, prhs[i]? = some a ∧ k ≤ prhs.length ∧
        ((mxIsEmpty a = true ∧ v = dflt) ∨
         (mxIsEmpty a = false ∧ a.rows = r ∧ a.cols = c ∧ a.realDouble = .ok () ∧ v = a.data))) :
    suppliedShapeOK prhs i r c = true := by
  rcases h with ⟨hl, -⟩ | ⟨a, ha, -, ⟨he, -⟩ | ⟨-, hr, hc, -, -⟩⟩
  · exact suppliedShapeOK_of_short prhs i r c (by omega)
  · simp [suppliedShapeOK, ha, he]
  · simp [suppliedShapeOK, ha, shapeIs, hr, hc]

theorem wellShaped_of_ok [Zero R] [One R] {nlhs : Int} {prhs : List (MxArray R)}
    {args : CoreArgs R} (h : mexFunction nlhs prhs = .ok args) : wellShaped prhs = true := by
  obtain ⟨-, hz, -, -, ht, hr, hm⟩ := (mexFunction_eq_ok_iff _ _ _).mp h
  have h0 := zSpherShapeOK_of_ok hz
  have h3 := suppliedShapeOK_of_block (by omega) ((readLTx_block prhs).1 _ ht)
  have h4 := suppliedShapeOK_of_block (by omega) ((readLRx_block prhs).1 _ hr)
  have h5 := suppliedShapeOK_of_block (by omega) ((readM_block prhs).1 _ hm)
  simp [wellShaped, h0, h3, h4, h5]

/-- A read past the end of `prhs` happens at index `nrhs`, with `nrhs` one of
3, 4 and 5, and only after every argument that was supplied passed its shape
check. -/
theorem outOfRange_cases [Zero R] [One R] {nlhs : Int} {prhs : List (MxArray R)} {i : Nat}
    (h : mexFunction nlhs prhs = .error (.outOfRange i)) :
    i = prhs.length ∧ 3 ≤ i ∧ i ≤ 5 ∧ wellShaped prhs = true := by
  rw [mexFunction_eq_error_iff] at h
  rcases h with h | ⟨hc, h | ⟨⟨z, hz⟩, h | ⟨-, h | ⟨-, h | ⟨⟨t, ht⟩, h | ⟨⟨r, hr⟩, h⟩⟩⟩⟩⟩⟩
  · rcases (checkCounts_eq_error_iff _ _ _).mp h with ⟨-, h⟩ | ⟨-, -, -, h⟩ <;> cases h
  · have := (checkCounts_eq_ok_iff _ _).mp hc
    rcases readZSpher_error h with h | ⟨m, h⟩ | ⟨-, h⟩
    · cases h
    · cases h
    · omega
  · rcases readSystemType_error h with h | ⟨m, h⟩ <;> cases h
  · obtain ⟨m, h⟩ := readUseHalfRange_error h
    cases h
  · have h0 := zSpherShapeOK_of_ok hz
    rcases (readLTx_block prhs).2 _ h with ⟨hk, ⟨hl, h⟩ | ⟨a, -, -, ⟨-, h⟩ | ⟨-, -, m, -, h⟩⟩⟩
    · cases h
      have h3 := suppliedShapeOK_of_short prhs 3 3 1 (by omega)
      have h4 := suppliedShapeOK_of_short prhs 4 3 1 (by omega)
      have h5 := suppliedShapeOK_of_short prhs 5 3 3 (by omega)
      exact ⟨by omega, by omega, by omega, by simp [wellShaped, h0, h3, h4, h5]⟩
    · cases h
    · cases h
  · have h0 := zSpherShapeOK_of_ok hz
    have h3 := suppliedShapeOK_of_block (by omega) ((readLTx_block prhs).1 _ ht)
    rcases (readLRx_block prhs).2 _ h with ⟨hk, ⟨hl, h⟩ | ⟨a, -, -, ⟨-, h⟩ | ⟨-, -, m, -, h⟩⟩⟩
    · cases h
      have h4 := suppliedShapeOK_of_short prhs 4 3 1 (by omega)
      have h5 := suppliedShapeOK_of_short prhs 5 3 3 (by omega)
      exact ⟨by omega, by omega, by omega, by simp [wellShaped, h0, h3, h4, h5]⟩
    · cases h
    · cases h
  · have h0 := zSpherShapeOK_of_ok hz
    have h3 := suppliedShapeOK_of_block (by omega) ((readLTx_block prhs).1 _ ht)
    have h4 := suppliedShapeOK_of_block (by omega) ((readLRx_block prhs).1 _ hr)
    rcases (readM_block prhs).2 _ h with ⟨hk, ⟨hl, h⟩ | ⟨a, -, -, ⟨-, h⟩ | ⟨-, -, m, -, h⟩⟩⟩
    · cases h
      have h5 := suppliedShapeOK_of_short prhs 5 3 3 (by omega)
      exact ⟨by omega, by omega, by omega, by simp [wellShaped, h0, h3, h4, h5]⟩
    · cases h
    · cases h

/-- C5: a call in which `zSpher` is not 3x1, or a supplied non-empty `lTx` or
`lRx` is not 3x1, or a supplied non-empty `M` is not 3x3, ends in an error
message: the core is not invoked and nothing is assigned to `plhs[0]`.
Conversely every call that invokes the core has all its supplied arguments in
the required shape. -/
theorem shape_validation [Zero R] [One R] (nlhs : Int) (prhs : List (MxArray R)) :
    (wellShaped prhs = false →
      ∃ msg, mexFunction nlhs prhs = .error (.mexErr msg) ∨
        mexFunction nlhs prhs = .error (.helperErr msg)) ∧
    (∀ args, mexFunction nlhs prhs = .ok args → wellShaped prhs = true) := by
  refine ⟨fun hw => ?_, fun args h => wellShaped_of_ok h⟩
  cases h : mexFunction nlhs prhs with
  | ok args =>
    rw [wellShaped_of_ok h] at hw
    cases hw
  | error e =>
    cases e with
    | mexErr msg => exact ⟨msg, .inl rfl⟩
    | helperErr msg => exact ⟨msg, .inr rfl⟩
    | outOfRange i =>
      rw [(outOfRange_cases h).2.2.2] at hw
      cases hw

/-- C4: an omitted or empty second argument gives `systemType = 0`; a
supplied integer `v` passes the check with `systemType = v` exactly when `v` is
0 or 1, and otherwise a call that came this far is rejected with
"Invalid system type specified." and never invokes the core; every
`systemType` that reaches the core is 0 or 1. -/
theorem systemType_resolution [Zero R] [One R] (nlhs : Int) (prhs : List (MxArray R)) :
    ((prhs.length < 2 ∨ ∃ a, prhs[1]? = some a ∧ mxIsEmpty a = true) →
      readSystemType prhs = .ok 0) ∧
    (∀ a v, prhs[1]? = some a → mxIsEmpty a = false → getIntFromMatlab a = .ok v →
      (readSystemType prhs = .ok v ↔ v = 0 ∨ v = 1) ∧
      (¬ (v = 0 ∨ v = 1) →
        readSystemType prhs = .error (.mexErr "Invalid system type specified.") ∧
        (∀ args, mexFunction nlhs prhs ≠ .ok args) ∧
        (checkCounts nlhs prhs.length = .ok () → (∃ z, readZSpher prhs = .ok z) →
          mexFunction nlhs prhs = .error (.mexErr "Invalid system type specified.")))) ∧
    (∀ args, mexFunction nlhs prhs = .ok args →
      readSystemType prhs = .ok args.systemType ∧
      (args.systemType = 0 ∨ args.systemType = 1)) := by
  refine ⟨?_, ?_, ?_⟩
  · rintro (h | ⟨a, ha, he⟩)
    · exact readSystemType_omitted h
    · exact readSystemType_empty ha he
  · intro a v ha he hv
    have hs := readSystemType_supplied ha he hv
    by_cases h01 : v = 0 ∨ v = 1
    · have hn : ¬ (v ≠ 0 ∧ v ≠ 1) := by tauto
      rw [if_neg hn] at hs
      exact ⟨⟨fun _ => h01, fun _ => hs⟩, fun h => absurd h01 h⟩
    · have hn : v ≠ 0 ∧ v ≠ 1 := by tauto
      rw [if_pos hn] at hs
      refine ⟨⟨fun h => ?_, fun h => absurd h h01⟩, fun _ => ⟨hs, fun args h => ?_, ?_⟩⟩
      · rw [hs] at h
        cases h
      · have := ((mexFunction_eq_ok_iff _ _ _).mp h).2.2.1
        rw [hs] at this
        cases this
      · intro hc hz
        rw [mexFunction_eq_error_iff]
        exact .inr ⟨hc, .inr ⟨hz, .inl hs⟩⟩
  · intro args h
    have hst := ((mexFunction_eq_ok_iff _ _ _).mp h).2.2.1
    exact ⟨hst, readSystemType_ok_range hst⟩

/-- A call with `systemType = 2` is rejected; calls with 0 and 1 reach the
core with that value. -/
theorem systemType_resolution_witness :
    mexFunction 1 [zSample, intScalar 2] =
      .error (.mexErr "Invalid system type specified.") ∧
    (∃ args, mexFunction 1 [zSample, intScalar 1] = .ok args ∧ args.systemType = 1) ∧
    (∃ args, mexFunction 1 [zSample] = .ok args ∧ args.systemType = 0) :=
  ⟨((systemType_resolution 1 [zSample, intScalar 2]).2.1 (intScalar 2) 2 rfl rfl rfl).2
      (by decide) |>.2.2 rfl ⟨_, rfl⟩,
   ⟨_, rfl, rfl⟩, ⟨_, rfl, rfl⟩⟩

/-- C1 (as the code has it): whenever the third argument is omitted or
empty, the core receives `useHalfRange = false`, also in a call that omits
`lTx` and `lRx`. -/
theorem useHalfRange_default_is_false [Zero R] [One R] (nlhs : Int) (prhs : List (MxArray R))
    (args : CoreArgs R)
    (hd : prhs.length < 3 ∨ ∃ a, prhs[2]? = some a ∧ mxIsEmpty a = true)
    (h : mexFunction nlhs prhs = .ok args) : args.useHalfRange = false :=
  readUseHalfRange_default hd ((mexFunction_eq_ok_iff _ _ _).mp h).2.2.2.1

/-- The call `calcSpherConvJacob(zSpher)`: both sites default to the origin
and the core receives `useHalfRange = false`. -/
theorem useHalfRange_default_is_false_witness :
    ∃ args, mexFunction 1 [zSample] = .ok args ∧ args.lTx = [0, 0, 0] ∧
      args.lRx = [0, 0, 0] ∧ args.useHalfRange = false :=
  ⟨_, rfl, rfl, rfl, useHalfRange_default_is_false 1 [zSample] _ (.inl (by decide)) rfl⟩

/-- C2 (as the code has it): with three arguments the block for `lTx`
reads `prhs[3]`, and with four arguments the block for `lRx` reads `prhs[4]`;
neither call reaches the core with a location at the origin. -/
theorem site_defaults_read_past_nrhs :
    mexFunction 1 [zSample, intScalar 0, boolScalar true] = .error (.outOfRange 3) ∧
    mexFunction 1 [zSample, intScalar 0, boolScalar true, siteSample] =
      .error (.outOfRange 4) :=
  ⟨rfl, rfl⟩

/-- C3 (as the code has it): with five arguments the block for `M` reads
`prhs[5]`; the call does not reach the core with the identity. -/
theorem rotation_default_reads_past_nrhs :
    mexFunction 1 [zSample, intScalar 0, boolScalar true, siteSample, siteSample] =
      .error (.outOfRange 5) :=
  rfl

/-- C9 (as the code has it): no call with 3, 4 or 5 arguments reaches the
core; such a call either stops with an error message or reads `prhs[nrhs]`,
one element past the end of the argument array. -/
theorem out_of_range_read [Zero R] [One R] (nlhs : Int) (prhs : List (MxArray R))
    (h3 : 3 ≤ prhs.length) (h5 : prhs.length ≤ 5) :
    (∀ args, mexFunction nlhs prhs ≠ .ok args) ∧
    ((∃ msg, mexFunction nlhs prhs = .error (.mexErr msg)) ∨
     (∃ msg, mexFunction nlhs prhs = .error (.helperErr msg)) ∨
     mexFunction nlhs prhs = .error (.outOfRange prhs.length)) := by
  have hno : ∀ args, mexFunction nlhs prhs ≠ .ok args := by
    intro args h
    obtain ⟨-, -, -, -, ht, hr, hm⟩ := (mexFunction_eq_ok_iff _ _ _).mp h
    rcases (readLTx_block prhs).1 _ ht with ⟨hl, -⟩ | ⟨a, ha, -⟩
    · omega
    · have l3 := (List.getElem?_eq_some_iff.mp ha).1
      rcases (readLRx_block prhs).1 _ hr with ⟨hl, -⟩ | ⟨b, hb, -⟩
      · omega
      · have l4 := (List.getElem?_eq_some_iff.mp hb).1
        rcases (readM_block prhs).1 _ hm with ⟨hl, -⟩ | ⟨c, hc, -⟩
        · omega
        · have l5 := (List.getElem?_eq_some_iff.mp hc).1
          omega
  refine ⟨hno, ?_⟩
  cases h : mexFunction nlhs prhs with
  | ok args => exact absurd h (hno args)
  | error e =>
    cases e with
    | mexErr msg => exact .inl ⟨msg, rfl⟩
    | helperErr msg => exact .inr (.inl ⟨msg, rfl⟩)
    | outOfRange i =>
      have := (outOfRange_cases h).1
      subst this
      exact .inr (.inr rfl)

/-- Well-formed calls with three, four and five arguments read `prhs[3]`,
`prhs[4]` and `prhs[5]`. -/
theorem out_of_range_read_witness :
    ((∀ args, mexFunction 1 [zSample, intScalar 0, emptyArray] ≠ .ok args) ∧
      mexFunction 1 [zSample, intScalar 0, emptyArray] = .error (.outOfRange 3)) ∧
    mexFunction 1 [zSample, intScalar 0, emptyArray, emptyArray] = .error (.outOfRange 4) ∧
    mexFunction 1 [zSample, intScalar 0, emptyArray, emptyArray, emptyArray] =
      .error (.outOfRange 5) :=
  ⟨⟨(out_of_range_read 1 [zSample, intScalar 0, emptyArray] (by decide) (by decide)).1, rfl⟩,
    rfl, rfl⟩

/-- C10 (as the code has it): a rotation matrix that is not 3x3 is reported
with the message of the receiver location, the same message that a receiver
location that is not 3x1 gets. -/
theorem rotation_matrix_shares_receiver_message :
    mexFunction 1 [zSample, intScalar 0, boolScalar true, siteSample, siteSample,
        realArray 2 2 [1, 0, 0, 1]] =
      .error (.mexErr "The receiver location has the wrong dimensionality.") ∧
    mexFunction 1 [zSample, intScalar 0, boolScalar true, siteSample, realArray 2 1 [10, 20],
        eyeSample] =
      .error (.mexErr "The receiver location has the wrong dimensionality.") :=
  ⟨rfl, rfl⟩

/-- A call without arguments is rejected on its count. -/
theorem argument_count_check_witness :
    mexFunction 1 ([] : List (MxArray ℚ)) = .error (.mexErr "Incorrect number of inputs.") ∧
    mexFunction 2 [zSample] = .error (.mexErr "Wrong number of outputs.") :=
  ⟨(argument_count_check 1 []).1.mpr (.inl (by decide)),
   ((argument_count_check 2 [zSample]).2.1 ⟨by decide, by decide⟩).mpr (by decide)⟩

/-- A call whose transmitter location is 2x1 ends in an error message. -/
theorem shape_validation_witness :
    ∃ msg,
      mexFunction 1 [zSample, intScalar 0, boolScalar true, realArray 2 1 [10, 20], siteSample,
        eyeSample] = .error (.mexErr msg) ∨
      mexFunction 1 [zSample, intScalar 0, boolScalar true, realArray 2 1 [10, 20], siteSample,
        eyeSample] = .error (.helperErr msg) :=
  (shape_validation 1 [zSample, intScalar 0, boolScalar true, realArray 2 1 [10, 20], siteSample,
    eyeSample]).1 rfl

/-! ## The Jacobian routine: range row and half-range convention -/

theorem rFull_half (r az el : ℝ) :
    rFull { range := r / 2, azimuth := az, elevation := el } true =
      rFull { range := r, azimuth := az, elevation := el } false := by
  simp only [rFull, if_true, Bool.false_eq_true, if_false]
  ring

theorem targetGlobal_half (r az el : ℝ) (systemType : Int) (lTx lRx : Vector3)
    (M : RotationMatrix3x3) :
    targetGlobal { range := r / 2, azimuth := az, elevation := el } systemType true lTx lRx M =
      targetGlobal { range := r, azimuth := az, elevation := el } systemType false lTx lRx M := by
  simp only [targetGlobal, rFull_half]

theorem jacobian_row0 (zSpher : SphericalMeasurement) (systemType : Int) (useHalfRange : Bool)
    (lTx lRx : Vector3) (M : RotationMatrix3x3) :
    calcSpherConvJacobGenCPP zSpher systemType useHalfRange lTx lRx M 0 =
      rangeGradient (targetGlobal zSpher systemType useHalfRange lTx lRx M) useHalfRange
        lTx lRx :=
  rfl

theorem jacobian_row1 (zSpher : SphericalMeasurement) (systemType : Int) (useHalfRange : Bool)
    (lTx lRx : Vector3) (M : RotationMatrix3x3) :
    calcSpherConvJacobGenCPP zSpher systemType useHalfRange lTx lRx M 1 =
      Matrix.vecMul (azimuthGradientLocal systemType
        (M.mulVec (targetGlobal zSpher systemType useHalfRange lTx lRx M - lRx))) M :=
  rfl

theorem jacobian_row2 (zSpher : SphericalMeasurement) (systemType : Int) (useHalfRange : Bool)
    (lTx lRx : Vector3) (M : RotationMatrix3x3) :
    calcSpherConvJacobGenCPP zSpher systemType useHalfRange lTx lRx M 2 =
      Matrix.vecMul (elevationGradientLocal systemType
        (M.mulVec (targetGlobal zSpher systemType useHalfRange lTx lRx M - lRx))) M :=
  rfl

/-- C8: for every geometry, the Jacobian computed with `useHalfRange = true`
at the measurement `(r/2, az, el)` has its range row equal to 0.5 times the
range row of the Jacobian computed with `useHalfRange = false` at
`(r, az, el)`, and the same azimuth and elevation rows. -/
theorem half_range_scaling (r az el : ℝ) (systemType : Int) (lTx lRx : Vector3)
    (M : RotationMatrix3x3) :
    calcSpherConvJacobGenCPP { range := r / 2, azimuth := az, elevation := el } systemType true
        lTx lRx M 0 =
      (0.5 : ℝ) • calcSpherConvJacobGenCPP { range := r, azimuth := az, elevation := el }
        systemType false lTx lRx M 0 ∧
    calcSpherConvJacobGenCPP { range := r / 2, azimuth := az, elevation := el } systemType true
        lTx lRx M 1 =
      calcSpherConvJacobGenCPP { range := r, azimuth := az, elevation := el }
        systemType false lTx lRx M 1 ∧
    calcSpherConvJacobGenCPP { range := r / 2, azimuth := az, elevation := el } systemType true
        lTx lRx M 2 =
      calcSpherConvJacobGenCPP { range := r, azimuth := az, elevation := el }
        systemType false lTx lRx M 2 := by
  refine ⟨?_, ?_, ?_⟩
  · simp only [jacobian_row0, targetGlobal_half, rangeGradient, if_true, Bool.false_eq_true,
      if_false, one_smul]
  · simp only [jacobian_row1, targetGlobal_half]
  · simp only [jacobian_row2, targetGlobal_half]

theorem norm3_sq (v : Vector3) : norm3 v ^ 2 = v 0 ^ 2 + v 1 ^ 2 + v 2 ^ 2 := by
  unfold norm3
  exact Real.sq_sqrt (by positivity)

theorem norm3_nonneg (v : Vector3) : 0 ≤ norm3 v := Real.sqrt_nonneg _

theorem dot3_sq_le (u b : Vector3) : dot3 u b ^ 2 ≤ norm3 u ^ 2 * norm3 b ^ 2 := by
  rw [norm3_sq, norm3_sq]
  unfold dot3
  nlinarith [sq_nonneg (u 0 * b 1 - u 1 * b 0), sq_nonneg (u 0 * b 2 - u 2 * b 0),
    sq_nonneg (u 1 * b 2 - u 2 * b 1)]

/-- The closed form of `bistaticDistance` solves the equation of the
specification: for a unit direction `u` and a range that exceeds the baseline,
`d ≥ 0` and `d + |d·u + b| = rFull`. -/
theorem bistaticDistance_solves (r : ℝ) (u b : Vector3) (hu : norm3 u = 1)
    (hb : norm3 b < r) :
    0 ≤ bistaticDistance r u b ∧
      bistaticDistance r u b + norm3 (bistaticDistance r u b • u + b) = r := by
  have hB := norm3_nonneg b
  have hcs := dot3_sq_le u b
  rw [hu, one_pow, one_mul] at hcs
  have habs : |dot3 u b| ≤ norm3 b := abs_le_of_sq_le_sq' hcs hB |> abs_le.mpr
  have hlo := (abs_le.mp habs).1
  have hD : 0 < r + dot3 u b := by linarith
  have hd : bistaticDistance r u b * (2 * (r + dot3 u b)) = r ^ 2 - norm3 b ^ 2 := by
    unfold bistaticDistance
    field_simp
  have hd0 : 0 ≤ bistaticDistance r u b := by
    unfold bistaticDistance
    apply div_nonneg
    · nlinarith
    · linarith
  have hrd : 0 ≤ r - bistaticDistance r u b := by
    have : (r - bistaticDistance r u b) * (2 * (r + dot3 u b)) =
        r ^ 2 + 2 * r * dot3 u b + norm3 b ^ 2 := by
      rw [sub_mul, hd]
      ring
    have h2 : 0 ≤ r ^ 2 + 2 * r * dot3 u b + norm3 b ^ 2 := by
      nlinarith [sq_nonneg (r - norm3 b)]
    by_contra hneg
    push_neg at hneg
    nlinarith
  refine ⟨hd0, ?_⟩
  have hu2 : u 0 ^ 2 + u 1 ^ 2 + u 2 ^ 2 = 1 := by
    rw [← norm3_sq, hu, one_pow]
  have hsq : norm3 (bistaticDistance r u b • u + b) ^ 2 = (r - bistaticDistance r u b) ^ 2 := by
    rw [norm3_sq]
    simp only [Pi.add_apply, Pi.smul_apply, smul_eq_mul]
    have hb2 := norm3_sq b
    have hdot : dot3 u b = u 0 * b 0 + u 1 * b 1 + u 2 * b 2 := rfl
    have e1 : (bistaticDistance r u b * u 0 + b 0) ^ 2 + (bistaticDistance r u b * u 1 + b 1) ^ 2 +
        (bistaticDistance r u b * u 2 + b 2) ^ 2 =
        bistaticDistance r u b ^ 2 * (u 0 ^ 2 + u 1 ^ 2 + u 2 ^ 2) +
          2 * bistaticDistance r u b * dot3 u b + norm3 b ^ 2 := by
      rw [hb2, hdot]
      ring
    rw [e1, hu2]
    linear_combination hd
  have hn : norm3 (bistaticDistance r u b • u + b) = r - bistaticDistance r u b := by
    have h1 := norm3_nonneg (bistaticDistance r u b • u + b)
    have h2 := (sq_eq_sq_iff_abs_eq_abs _ _).mp hsq
    rwa [abs_of_nonneg h1, abs_of_nonneg hrd] at h2
  rw [hn]
  ring

/-! ## The Jacobian routine: the monostatic range row -/

theorem cos_arcsin_ratio (a b c t : ℝ) (ht : t = a ^ 2 + b ^ 2 + c ^ 2) (hn : 0 < t) :
    Real.cos (Real.arcsin (c / Real.sqrt t)) = Real.sqrt (a ^ 2 + b ^ 2) / Real.sqrt t := by
  have hs : 0 < Real.sqrt t := Real.sqrt_pos.mpr hn
  have hsq : Real.sqrt t ^ 2 = a ^ 2 + b ^ 2 + c ^ 2 := by
    rw [Real.sq_sqrt hn.le, ht]
  rw [Real.cos_arcsin]
  have : 1 - (c / Real.sqrt t) ^ 2 = (a ^ 2 + b ^ 2) / Real.sqrt t ^ 2 := by
    rw [div_pow, hsq]
    have : a ^ 2 + b ^ 2 + c ^ 2 ≠ 0 := by rw [← ht]; exact hn.ne.symm
    field_simp
  rw [this, Real.sqrt_div (by positivity), Real.sqrt_sq hs.le]

theorem sin_arcsin_ratio (a b c t : ℝ) (ht : t = a ^ 2 + b ^ 2 + c ^ 2) (hn : 0 < t) :
    Real.sin (Real.arcsin (c / Real.sqrt t)) = c / Real.sqrt t := by
  have hs : 0 < Real.sqrt t := Real.sqrt_pos.mpr hn
  have hle : |c| ≤ Real.sqrt t := by
    apply Real.abs_le_sqrt
    rw [ht]
    nlinarith [sq_nonneg a, sq_nonneg b]
  have h1 := abs_le.mp hle
  apply Real.sin_arcsin
  · rw [le_div_iff₀ hs]; linarith
  · rw [div_le_iff₀ hs]; linarith

theorem planar_cos_arg (a b : ℝ) :
    Real.sqrt (a ^ 2 + b ^ 2) * Real.cos (Complex.arg ⟨a, b⟩) = a := by
  by_cases h : (⟨a, b⟩ : ℂ) = 0
  · have ha : a = 0 := by simpa using congrArg Complex.re h
    have hb : b = 0 := by simpa using congrArg Complex.im h
    subst ha hb
    simp
  · rw [Complex.cos_arg h, Complex.abs_apply, Complex.normSq_mk]
    have hpos : 0 < Real.sqrt (a * a + b * b) := by
      rw [← Complex.normSq_mk, ← Complex.abs_apply]
      exact (Complex.abs.pos h)
    have : a ^ 2 + b ^ 2 = a * a + b * b := by ring
    rw [this]
    field_simp

theorem planar_sin_arg (a b : ℝ) :
    Real.sqrt (a ^ 2 + b ^ 2) * Real.sin (Complex.arg ⟨a, b⟩) = b := by
  by_cases h : (⟨a, b⟩ : ℂ) = 0
  · have ha : a = 0 := by simpa using congrArg Complex.re h
    have hb : b = 0 := by simpa using congrArg Complex.im h
    subst ha hb
    simp
  · rw [Complex.sin_arg, Complex.abs_apply, Complex.normSq_mk]
    have hpos : 0 < Real.sqrt (a * a + b * b) := by
      rw [← Complex.normSq_mk, ← Complex.abs_apply]
      exact (Complex.abs.pos h)
    have : a ^ 2 + b ^ 2 = a * a + b * b := by ring
    rw [this]
    field_simp

theorem sq_sum_pos {p : Vector3} (hp : p ≠ 0) : 0 < p 0 ^ 2 + p 1 ^ 2 + p 2 ^ 2 := by
  by_contra h
  have h0 : p 0 ^ 2 = 0 := by nlinarith [sq_nonneg (p 0), sq_nonneg (p 1), sq_nonneg (p 2)]
  have h1 : p 1 ^ 2 = 0 := by nlinarith [sq_nonneg (p 0), sq_nonneg (p 1), sq_nonneg (p 2)]
  have h2 : p 2 ^ 2 = 0 := by nlinarith [sq_nonneg (p 0), sq_nonneg (p 1), sq_nonneg (p 2)]
  apply hp
  funext i
  fin_cases i
  · simpa using h0
  · simpa using h1
  · simpa using h2

theorem norm3_pos {p : Vector3} (hp : p ≠ 0) : 0 < norm3 p :=
  Real.sqrt_pos.mpr (sq_sum_pos hp)

theorem norm3_zero : norm3 0 = 0 := by
  simp [norm3]

/-- The direction rebuilt from the angles of a point is the unit vector
towards the point, with either system type. -/
theorem direction_of_angles {p : Vector3} (hp : p ≠ 0) (systemType : Int) :
    direction systemType
      (if systemType = 0 then Complex.arg ⟨p 0, p 1⟩ else Complex.arg ⟨p 2, p 0⟩)
      (if systemType = 0 then Real.arcsin (p 2 / norm3 p) else Real.arcsin (p 1 / norm3 p)) =
      unit3 p := by
  have hpos := sq_sum_pos hp
  have hn : 0 < Real.sqrt (p 0 ^ 2 + p 1 ^ 2 + p 2 ^ 2) := Real.sqrt_pos.mpr hpos
  unfold direction unit3 norm3
  by_cases hs : systemType = 0
  · simp only [hs, if_true]
    have hc := cos_arcsin_ratio (p 0) (p 1) (p 2) _ rfl hpos
    have hsn := sin_arcsin_ratio (p 0) (p 1) (p 2) _ rfl hpos
    have h1 := planar_cos_arg (p 0) (p 1)
    have h2 := planar_sin_arg (p 0) (p 1)
    funext i
    fin_cases i
    · simp only [Fin.zero_eta, Matrix.cons_val_zero, Pi.smul_apply, smul_eq_mul, hc]
      rw [div_mul_eq_mul_div, h1]
      ring
    · simp only [Fin.mk_one, Matrix.cons_val_one, Matrix.head_cons, Pi.smul_apply, smul_eq_mul, hc]
      rw [div_mul_eq_mul_div, h2]
      ring
    · simp only [Fin.reduceFinMk, Matrix.cons_val_two, Matrix.tail_cons, Matrix.head_cons,
        Pi.smul_apply, smul_eq_mul, hsn]
      ring
  · simp only [hs, if_false]
    have ht : p 0 ^ 2 + p 1 ^ 2 + p 2 ^ 2 = p 2 ^ 2 + p 0 ^ 2 + p 1 ^ 2 := by ring
    have hc := cos_arcsin_ratio (p 2) (p 0) (p 1) _ ht hpos
    have hsn := sin_arcsin_ratio (p 2) (p 0) (p 1) _ ht hpos
    have h1 := planar_cos_arg (p 2) (p 0)
    have h2 := planar_sin_arg (p 2) (p 0)
    funext i
    fin_cases i
    · simp only [Fin.zero_eta, Matrix.cons_val_zero, Pi.smul_apply, smul_eq_mul, hc]
      rw [div_mul_eq_mul_div, h2]
      ring
    · simp only [Fin.mk_one, Matrix.cons_val_one, Matrix.head_cons, Pi.smul_apply, smul_eq_mul,
        hsn]
      ring
    · simp only [Fin.reduceFinMk, Matrix.cons_val_two, Matrix.tail_cons, Matrix.head_cons,
        Pi.smul_apply, smul_eq_mul, hc]
      rw [div_mul_eq_mul_div, h1]
      ring

/-- In the monostatic geometry at the origin with aligned axes the target
rebuilt from the measurement of `p` is `p` itself, under both range
conventions. -/
theorem targetGlobal_monostatic {p : Vector3} (hp : p ≠ 0) (systemType : Int)
    (useHalfRange : Bool) :
    targetGlobal (sphericalMeasurementOf p systemType useHalfRange 0 0 1) systemType
      useHalfRange 0 0 1 = p := by
  have hn := norm3_pos hp
  have hdir := direction_of_angles hp systemType
  have hr : rFull (sphericalMeasurementOf p systemType useHalfRange 0 0 1) useHalfRange =
      2 * norm3 p := by
    cases useHalfRange
    · simp only [rFull, sphericalMeasurementOf, Bool.false_eq_true, if_false, sub_zero]
      ring
    · simp only [rFull, sphericalMeasurementOf, if_true, sub_zero]
      ring
  unfold targetGlobal
  simp only [hr]
  simp only [sphericalMeasurementOf, sub_zero, Matrix.one_mulVec, hdir, Matrix.transpose_one,
    add_zero, bistaticDistance, norm3_zero, dot3, Pi.zero_apply, mul_zero]
  unfold unit3
  rw [smul_smul]
  convert one_smul ℝ p using 2
  field_simp
  ring

/-- C7 (amended): in the monostatic geometry at the origin with aligned axes
and the half-range convention, the range row of the Jacobian at the
measurement of a target `p ≠ 0` is the unit vector `p/|p|`, with either system
type. -/
theorem monostatic_range_row (p : Vector3) (hp : p ≠ 0) (systemType : Int) :
    calcSpherConvJacobGenCPP (sphericalMeasurementOf p systemType true 0 0 1) systemType true
      0 0 1 0 = unit3 p := by
  rw [jacobian_row0, targetGlobal_monostatic hp]
  simp only [rangeGradient, if_true, sub_zero]
  rw [← two_smul ℝ (unit3 p), smul_smul]
  norm_num

/-- Under the full-range convention the range row is twice the unit
vector. -/
theorem full_range_monostatic_row (p : Vector3) (hp : p ≠ 0) (systemType : Int) :
    calcSpherConvJacobGenCPP (sphericalMeasurementOf p systemType false 0 0 1) systemType false
      0 0 1 0 = (2 : ℝ) • unit3 p := by
  rw [jacobian_row0, targetGlobal_monostatic hp]
  simp only [rangeGradient, Bool.false_eq_true, if_false, sub_zero, one_smul]
  rw [two_smul]

theorem scenario_point_ne_zero : (![1000, 0, 0] : Vector3) ≠ 0 := by
  intro h
  have := congrFun h 0
  simp at this

theorem scenario_unit : unit3 ![1000, 0, 0] = ![1, 0, 0] := by
  have hn : norm3 ![1000, 0, 0] = 1000 := by
    unfold norm3
    simp only [Matrix.cons_val_zero, Matrix.cons_val_one, Matrix.head_cons, Matrix.cons_val_two,
      Matrix.tail_cons]
    rw [show (1000 : ℝ) ^ 2 + 0 ^ 2 + 0 ^ 2 = 1000 ^ 2 by norm_num]
    exact Real.sqrt_sq (by norm_num)
  unfold unit3
  rw [hn]
  funext i
  fin_cases i <;> simp

/-- The scenario of the specification: `p = (1000, 0, 0)`, both sites at the
origin, `M` the identity, `systemType = 0`, `useHalfRange = true`; the range
row is `(1, 0, 0)`. -/
theorem monostatic_range_row_witness :
    (![1000, 0, 0] : Vector3) ≠ 0 ∧
    calcSpherConvJacobGenCPP (sphericalMeasurementOf ![1000, 0, 0] 0 true 0 0 1) 0 true
      0 0 1 0 = ![1, 0, 0] :=
  ⟨scenario_point_ne_zero,
    (monostatic_range_row ![1000, 0, 0] scenario_point_ne_zero 0).trans scenario_unit⟩

/-- The same scenario with `useHalfRange = false`: the range row is
`(2, 0, 0)`, which is not the unit vector `(1, 0, 0)` towards the target. -/
theorem monostatic_range_row_full_range_counterexample :
    calcSpherConvJacobGenCPP (sphericalMeasurementOf ![1000, 0, 0] 0 false 0 0 1) 0 false
      0 0 1 0 = ![2, 0, 0] ∧
    calcSpherConvJacobGenCPP (sphericalMeasurementOf ![1000, 0, 0] 0 false 0 0 1) 0 false
      0 0 1 0 ≠ unit3 ![1000, 0, 0] := by
  have h := full_range_monostatic_row ![1000, 0, 0] scenario_point_ne_zero 0
  rw [scenario_unit] at h
  have h2 : (2 : ℝ) • (![1, 0, 0] : Vector3) = ![2, 0, 0] := by
    funext i
    fin_cases i <;> simp
  rw [h2] at h
  refine ⟨h, ?_⟩
  rw [h, scenario_unit]
  intro hc
  have := congrFun hc 0
  simp at this

end CalcSpherConvJacob
